import Mathlib

/-
Verification of the pyavd-cli build pipeline (src/pyavd_cli/build.py, with the
legacy variant src/pyavd-cli/build.py).

The pipeline is shallowly embedded: the external collaborators (pyavd functions,
ansible inventory/templar) are opaque parameters collected in `Env` and
`Inventory`; the pipeline functions are translated from the Python source one
by one, threading an explicit filesystem (`FS`) and an event trace
(`List Event`).  `executor.map` over a process pool is modelled as an in-order
fold with first-error propagation: `concurrent.futures.Executor.map` yields
results in input order and, within a chunk, `_process_chunk` applies the worker
function sequentially, so a raised error prevents the later items of that chunk
from running.  Schedule dependence of the build stage is modelled separately by
running the fold over an arbitrary permutation of the device list, and the
consequences of a failure for other units are stated only at chunk granularity
(`process_chunk`): chunks already dispatched to other workers are not cancelled
by a failure, so nothing is claimed about them.
-/

namespace PyavdCli

/-- Mirror of pyavd's `ValidationResult`: a failed flag plus ordered error and
deprecation-warning messages. -/
structure ValidationResult where
  failed : Bool
  validation_errors : List String
  deprecation_warnings : List String
deriving DecidableEq, Repr

/-- Opaque external collaborators consumed by the pipeline, parametrized by the
types of hostvars `V`, avd facts `F` and structured configs `C`.
`avd_switch_facts f h` stands for `avd_facts["avd_switch_facts"][hostname]`,
`vars_union` for the dict union `|`, `template` for `Templar(...).template`,
`yaml_dump` and `yaml_dump_facts` for `yaml.dump` with the AnsibleDumper. -/
structure Env (V F C : Type) where
  validate_inputs : V → ValidationResult
  get_avd_facts : List (String × V) → F
  get_device_structured_config : String → V → F → Except String C
  avd_switch_facts : F → String → V
  vars_union : V → C → V
  template : V → C → C
  yaml_dump : C → String
  yaml_dump_facts : F → String
  validate_structured_config : C → ValidationResult
  get_device_config : C → String

/-- Artifact paths.  `pathlib` paths are structured values, so the per-device
artifact paths are modelled by constructors rather than string concatenation:
`structured dir h` is `dir / f"{h}.yml"`, `rendered dir h` is
`dir / f"{h}.cfg"`, `factsFile p` is the caller-supplied avd-facts path. -/
inductive FPath where
  | structured (dir : String) (hostname : String)
  | rendered (dir : String) (hostname : String)
  | factsFile (p : String)
deriving DecidableEq, Repr

/-- The filesystem: an association list from paths to file contents, most
recent write first. -/
abbrev FS := List (FPath × String)

/-- Writing a file records the new content in front of any older one. -/
def FS.write (fs : FS) (p : FPath) (c : String) : FS := (p, c) :: fs

/-- Reading a file returns the most recent content written at the path. -/
def FS.read (fs : FS) (p : FPath) : Option String := List.lookup p fs

/-- Observable events of one pipeline run, in program order.  `deriveFacts`
records the argument passed to `get_avd_facts`; `buildUnit` marks the start of
one device's build-and-write unit. -/
inductive Event (V C : Type) where
  | validateInput (hostname : String)
  | deriveFacts (arg : List (String × V))
  | buildUnit (hostname : String)
  | writeStructured (hostname : String) (content : String)
  | validateStructured (hostname : String) (config : C)
  | writeRendered (hostname : String) (content : String)
  | writeFactsArtifact (p : String)
deriving DecidableEq

variable {V F C : Type}

/-- `validate_hostvars` (src/pyavd_cli/build.py lines 60-68): validate one
device's inputs; under strict mode a failed result raises
`RuntimeError(f"{hostname} validate_inputs failed")`, otherwise the
`(hostname, hostvars)` pair is returned unchanged. -/
def validate_hostvars (env : Env V F C) (hostname : String) (hostvars : V)
    (strict : Bool) : Except String (String × V) :=
  let validation_result := env.validate_inputs hostvars
  if validation_result.failed && strict then
    Except.error (hostname ++ " validate_inputs failed")
  else
    Except.ok (hostname, hostvars)

/-- `validate_all_inputs` (src/pyavd_cli/build.py lines 127-139):
`dict(executor.map(validate_hostvars, ...))`.  Results are collected in input
order and the first raised error propagates to the caller. -/
def validate_all_inputs (env : Env V F C) (all_hostvars : List (String × V))
    (strict : Bool) : List (Event V C) × Except String (List (String × V)) :=
  match all_hostvars with
  | [] => ([], Except.ok [])
  | (hostname, hostvars) :: rest =>
    match validate_hostvars env hostname hostvars strict with
    | Except.error e => ([Event.validateInput hostname], Except.error e)
    | Except.ok pair =>
      let next := validate_all_inputs env rest strict
      (Event.validateInput hostname :: next.1, next.2.map (fun l => pair :: l))

/-- `generate_avd_facts` (src/pyavd_cli/build.py lines 142-156): one call to
`get_avd_facts` on the full mapping, then an optional dump of the facts to
`avd_facts_path`. -/
def generate_avd_facts (env : Env V F C) (all_hostvars : List (String × V))
    (avd_facts_path : Option String) (fs : FS) :
    F × FS × List (Event V C) :=
  let avd_facts := env.get_avd_facts all_hostvars
  match avd_facts_path with
  | some p =>
    (avd_facts,
     FS.write fs (FPath.factsFile p) (env.yaml_dump_facts avd_facts),
     [Event.deriveFacts all_hostvars, Event.writeFactsArtifact p])
  | none => (avd_facts, fs, [Event.deriveFacts all_hostvars])

/-- The local `template_structured_config` of `build_and_write_device_config`
(src/pyavd_cli/build.py lines 84-85): the structured config is templated once
more, with variables `avd_facts["avd_switch_facts"][hostname] | structured_config`. -/
def template_structured_config (env : Env V F C) (hostname : String)
    (avd_facts : F) (structured_config : C) : C :=
  env.template (env.vars_union (env.avd_switch_facts avd_facts hostname) structured_config)
    structured_config

/-- `build_and_write_device_config` (src/pyavd_cli/build.py lines 71-109): one
device's unit.  Derive the structured config (wrapping any error in a plain
`RuntimeError(f"{exc}")`), template it, write the `.yml` artifact, validate
the templated config, raise under strict mode on failure, then write the
`.cfg` artifact. -/
def build_and_write_device_config (env : Env V F C) (hostname : String)
    (inputs : V) (avd_facts : F) (structured_configs_path : String)
    (intended_configs_path : String) (strict : Bool) (fs : FS) :
    FS × List (Event V C) × Except String String :=
  match env.get_device_structured_config hostname inputs avd_facts with
  | Except.error msg => (fs, [Event.buildUnit hostname], Except.error msg)
  | Except.ok structured_config =>
    let tsc := template_structured_config env hostname avd_facts structured_config
    let fs1 := FS.write fs (FPath.structured structured_configs_path hostname) (env.yaml_dump tsc)
    let validation_result := env.validate_structured_config tsc
    if validation_result.failed && strict then
      (fs1,
       [Event.buildUnit hostname, Event.writeStructured hostname (env.yaml_dump tsc),
        Event.validateStructured hostname tsc],
       Except.error (hostname ++ " validate_structured_config failed"))
    else
      (FS.write fs1 (FPath.rendered intended_configs_path hostname) (env.get_device_config tsc),
       [Event.buildUnit hostname, Event.writeStructured hostname (env.yaml_dump tsc),
        Event.validateStructured hostname tsc,
        Event.writeRendered hostname (env.get_device_config tsc)],
       Except.ok hostname)

/-- `build_and_write_all_device_configs` (src/pyavd_cli/build.py lines 159-186):
`list(executor.map(build_and_write_device_config, ...))`, as an in-order fold.
The result component is faithful to the concurrent program regardless of
scheduling: `executor.map` yields results in input order, so the first error
the coordinator re-raises is the first failing unit in input order.  The
filesystem and trace components serialize the stage; this is exact when the
devices fit one chunk (the single-chunk semantics is `process_chunk` below),
and on error-free runs the order does not matter — proved for arbitrary
permutations of the device list.  What happens after a failure is therefore
stated at chunk granularity only, because chunks already dispatched to other
workers are not cancelled by the failure. -/
def build_and_write_all_device_configs (env : Env V F C)
    (all_hostvars : List (String × V)) (avd_facts : F)
    (structured_configs_path intended_configs_path : String)
    (strict : Bool) (fs : FS) :
    FS × List (Event V C) × Except String (List String) :=
  match all_hostvars with
  | [] => (fs, [], Except.ok [])
  | (hostname, hostvars) :: rest =>
    let step := build_and_write_device_config env hostname hostvars avd_facts
        structured_configs_path intended_configs_path strict fs
    match step.2.2 with
    | Except.error e => (step.1, step.2.1, Except.error e)
    | Except.ok hn =>
      let next := build_and_write_all_device_configs env rest avd_facts
          structured_configs_path intended_configs_path strict step.1
      (next.1, step.2.1 ++ next.2.1, next.2.2.map (fun l => hn :: l))

/-- `_process_chunk` of concurrent.futures.process, applied to
`build_and_write_device_config`: one worker receives one chunk (at most
`chunksize = 8` devices, src/pyavd_cli/build.py line 182) and applies the
worker function to its items strictly sequentially, collecting the results;
an item that raises aborts the remaining items of that chunk, and the chunk's
error is delivered to the coordinator.  Other chunks run on other workers and
are unaffected. -/
def process_chunk (env : Env V F C) (chunk : List (String × V)) (avd_facts : F)
    (structured_configs_path intended_configs_path : String)
    (strict : Bool) (fs : FS) :
    FS × List (Event V C) × Except String (List String) :=
  match chunk with
  | [] => (fs, [], Except.ok [])
  | (hostname, hostvars) :: rest =>
    let step := build_and_write_device_config env hostname hostvars avd_facts
        structured_configs_path intended_configs_path strict fs
    match step.2.2 with
    | Except.error e => (step.1, step.2.1, Except.error e)
    | Except.ok hn =>
      let next := process_chunk env rest avd_facts
          structured_configs_path intended_configs_path strict step.1
      (next.1, step.2.1 ++ next.2.1, next.2.2.map (fun l => hn :: l))

/-- `build` (src/pyavd_cli/build.py lines 189-221): validate all inputs,
generate the facts once, filter the validated mapping down to the target
hosts, then build and write every target device's configs.  Returns the number
of processed hosts. -/
def build (env : Env V F C) (fabric_hostvars : List (String × V))
    (target_hosts : List String)
    (intended_configs_path structured_configs_path : String)
    (avd_facts_path : Option String) (strict : Bool) (fs0 : FS) :
    FS × List (Event V C) × Except String Nat :=
  let v := validate_all_inputs env fabric_hostvars strict
  match v.2 with
  | Except.error e => (fs0, v.1, Except.error e)
  | Except.ok validated_fabric_hostvars =>
    let g := generate_avd_facts env validated_fabric_hostvars avd_facts_path fs0
    let target_hostvars := validated_fabric_hostvars.filter
        (fun p => target_hosts.contains p.1)
    let b := build_and_write_all_device_configs env target_hostvars g.1
        structured_configs_path intended_configs_path strict g.2.1
    (b.1, v.1 ++ g.2.2 ++ b.2.1, b.2.2.map List.length)

/-- The ansible inventory and variable manager, opaque to the pipeline:
`hosts` is the iteration order of `inventory.hosts`, `get_hosts pat` the hosts
matched by a pattern, `host_vars` is `variable_manager.get_vars` for one host
and `template_vars` is `templar.template(hostvars, fail_on_undefined=False)`. -/
structure Inventory (V : Type) where
  hosts : List String
  get_hosts : String → List String
  host_vars : String → V
  template_vars : V → V

/-- `get_fabric_hostvars` (src/pyavd_cli/build.py lines 113-124): load and
template the variables of every host matching the fabric group pattern.  No
inventory entry is excluded by name. -/
def get_fabric_hostvars (inv : Inventory V) (fabric_name : String) :
    List (String × V) :=
  (inv.get_hosts fabric_name).map (fun h => (h, inv.template_vars (inv.host_vars h)))

/-- The inventory-loading loop of the legacy `build`
(src/pyavd-cli/build.py lines 71-79): iterate `inventory.hosts`, skipping the
host named "cvp". -/
def load_all_hostvars_legacy (inv : Inventory V) : List (String × V) :=
  (inv.hosts.filter (fun h => !(h == "cvp"))).map
    (fun h => (h, inv.template_vars (inv.host_vars h)))

/-- The target-selection checks of `main` (src/pyavd_cli/build.py lines
289-296): exit with a usage error when the limit pattern matches no host, or
when the matched hosts are disjoint from the fabric group; otherwise proceed. -/
def main_select (fabric_keys : List String) (target_hosts : List String) : Bool :=
  if target_hosts.length == 0 then false
  else if fabric_keys.all (fun k => !(target_hosts.contains k)) then false
  else true

/-! Model infrastructure: one device's unit decomposed into its outcome, its
filesystem delta and its trace, plus lemmas restating the pipeline functions
in terms of these. -/

/-- The outcome of one device's build-and-write unit. -/
def unit_result (env : Env V F C) (avd_facts : F) (strict : Bool)
    (p : String × V) : Except String String :=
  match env.get_device_structured_config p.1 p.2 avd_facts with
  | Except.error msg => Except.error msg
  | Except.ok sc =>
    let tsc := template_structured_config env p.1 avd_facts sc
    if (env.validate_structured_config tsc).failed && strict then
      Except.error (p.1 ++ " validate_structured_config failed")
    else
      Except.ok p.1

/-- The files written by one device's unit, most recent first. -/
def unit_delta (env : Env V F C) (avd_facts : F)
    (structured_configs_path intended_configs_path : String) (strict : Bool)
    (p : String × V) : FS :=
  match env.get_device_structured_config p.1 p.2 avd_facts with
  | Except.error _ => []
  | Except.ok sc =>
    let tsc := template_structured_config env p.1 avd_facts sc
    if (env.validate_structured_config tsc).failed && strict then
      [(FPath.structured structured_configs_path p.1, env.yaml_dump tsc)]
    else
      [(FPath.rendered intended_configs_path p.1, env.get_device_config tsc),
       (FPath.structured structured_configs_path p.1, env.yaml_dump tsc)]

/-- The events of one device's unit, in program order. -/
def unit_trace (env : Env V F C) (avd_facts : F) (strict : Bool)
    (p : String × V) : List (Event V C) :=
  match env.get_device_structured_config p.1 p.2 avd_facts with
  | Except.error _ => [Event.buildUnit p.1]
  | Except.ok sc =>
    let tsc := template_structured_config env p.1 avd_facts sc
    if (env.validate_structured_config tsc).failed && strict then
      [Event.buildUnit p.1, Event.writeStructured p.1 (env.yaml_dump tsc),
       Event.validateStructured p.1 tsc]
    else
      [Event.buildUnit p.1, Event.writeStructured p.1 (env.yaml_dump tsc),
       Event.validateStructured p.1 tsc,
       Event.writeRendered p.1 (env.get_device_config tsc)]

/-- One device's unit equals its decomposition: writes prepend the unit's
delta, and the trace and outcome do not depend on the incoming filesystem. -/
theorem build_and_write_device_config_eq (env : Env V F C) (hostname : String)
    (inputs : V) (avd_facts : F) (scp icp : String) (strict : Bool) (fs : FS) :
    build_and_write_device_config env hostname inputs avd_facts scp icp strict fs =
      (unit_delta env avd_facts scp icp strict (hostname, inputs) ++ fs,
       unit_trace env avd_facts strict (hostname, inputs),
       unit_result env avd_facts strict (hostname, inputs)) := by
  unfold build_and_write_device_config unit_delta unit_trace unit_result
  cases env.get_device_structured_config hostname inputs avd_facts with
  | error msg => rfl
  | ok sc =>
    simp only []
    by_cases hv : (env.validate_structured_config
        (template_structured_config env hostname avd_facts sc)).failed && strict
    · simp [hv, FS.write]
    · simp [hv, FS.write]

/-- Unfolding of the build stage at a device whose unit fails: the error is
returned at once, the unit's writes stand, and no later unit runs. -/
theorem build_all_cons_error (env : Env V F C) (hostname : String) (hostvars : V)
    (rest : List (String × V)) (avd_facts : F) (scp icp : String) (strict : Bool)
    (fs : FS) (e : String)
    (hr : unit_result env avd_facts strict (hostname, hostvars) = Except.error e) :
    build_and_write_all_device_configs env ((hostname, hostvars) :: rest)
        avd_facts scp icp strict fs =
      (unit_delta env avd_facts scp icp strict (hostname, hostvars) ++ fs,
       unit_trace env avd_facts strict (hostname, hostvars),
       Except.error e) := by
  rw [build_and_write_all_device_configs, build_and_write_device_config_eq, hr]

/-- Unfolding of the build stage at a device whose unit succeeds. -/
theorem build_all_cons_ok (env : Env V F C) (hostname : String) (hostvars : V)
    (rest : List (String × V)) (avd_facts : F) (scp icp : String) (strict : Bool)
    (fs : FS) (hn : String)
    (hr : unit_result env avd_facts strict (hostname, hostvars) = Except.ok hn) :
    build_and_write_all_device_configs env ((hostname, hostvars) :: rest)
        avd_facts scp icp strict fs =
      ((build_and_write_all_device_configs env rest avd_facts scp icp strict
          (unit_delta env avd_facts scp icp strict (hostname, hostvars) ++ fs)).1,
       unit_trace env avd_facts strict (hostname, hostvars) ++
         (build_and_write_all_device_configs env rest avd_facts scp icp strict
            (unit_delta env avd_facts scp icp strict (hostname, hostvars) ++ fs)).2.1,
       Except.map (fun l => hn :: l)
         (build_and_write_all_device_configs env rest avd_facts scp icp strict
            (unit_delta env avd_facts scp icp strict (hostname, hostvars) ++ fs)).2.2) := by
  rw [build_and_write_all_device_configs, build_and_write_device_config_eq, hr]

/-- One chunk's sequential execution coincides with the in-order fold run on
that chunk's devices: for a single chunk the serialized model is exact. -/
theorem process_chunk_eq_fold (env : Env V F C) (chunk : List (String × V))
    (avd_facts : F) (scp icp : String) (strict : Bool) (fs : FS) :
    process_chunk env chunk avd_facts scp icp strict fs =
      build_and_write_all_device_configs env chunk avd_facts scp icp strict fs := by
  induction chunk generalizing fs with
  | nil => rfl
  | cons p rest ih =>
    cases p with
    | mk hostname hostvars =>
      rw [process_chunk, build_and_write_all_device_configs]
      cases hstep : (build_and_write_device_config env hostname hostvars avd_facts
          scp icp strict fs).2.2 with
      | error e => simp [hstep]
      | ok hn => simp [hstep, ih]

/-- The host that owns a path, if any. -/
def pathHost : FPath → Option String
  | FPath.structured _ h => some h
  | FPath.rendered _ h => some h
  | FPath.factsFile _ => none

/-- The host an event belongs to, if any. -/
def eventHost : Event V C → Option String
  | Event.validateInput h => some h
  | Event.deriveFacts _ => none
  | Event.buildUnit h => some h
  | Event.writeStructured h _ => some h
  | Event.validateStructured h _ => some h
  | Event.writeRendered h _ => some h
  | Event.writeFactsArtifact _ => none

/-- Every path a unit writes is owned by that unit's host. -/
theorem unit_delta_host (env : Env V F C) (avd_facts : F) (scp icp : String)
    (strict : Bool) (p : String × V) (q : FPath) (c : String)
    (hq : (q, c) ∈ unit_delta env avd_facts scp icp strict p) :
    pathHost q = some p.1 := by
  unfold unit_delta at hq
  cases h : env.get_device_structured_config p.1 p.2 avd_facts with
  | error msg => simp [h] at hq
  | ok sc =>
    rw [h] at hq
    simp only [] at hq
    by_cases hv : (env.validate_structured_config
        (template_structured_config env p.1 avd_facts sc)).failed && strict
    · simp [hv] at hq
      rw [hq.1]
      rfl
    · simp [hv] at hq
      rcases hq with ⟨hq1, _⟩ | ⟨hq1, _⟩ <;> rw [hq1] <;> rfl

/-- Every event a unit emits belongs to that unit's host. -/
theorem unit_trace_host (env : Env V F C) (avd_facts : F) (strict : Bool)
    (p : String × V) (e : Event V C) (he : e ∈ unit_trace env avd_facts strict p) :
    eventHost e = some p.1 := by
  unfold unit_trace at he
  cases h : env.get_device_structured_config p.1 p.2 avd_facts with
  | error msg =>
    rw [h] at he
    simp at he
    rw [he]; rfl
  | ok sc =>
    rw [h] at he
    simp only [] at he
    by_cases hv : (env.validate_structured_config
        (template_structured_config env p.1 avd_facts sc)).failed && strict
    · simp [hv] at he
      rcases he with h1 | h1 | h1 <;> rw [h1] <;> rfl
    · simp [hv] at he
      rcases he with h1 | h1 | h1 | h1 <;> rw [h1] <;> rfl

/-- First-defined option, the lookup order of an association-list append. -/
def firstSome (x y : Option String) : Option String :=
  match x with
  | some c => some c
  | none => y

theorem FS.read_append (xs ys : FS) (q : FPath) :
    FS.read (xs ++ ys) q = firstSome (FS.read xs q) (FS.read ys q) := by
  induction xs with
  | nil => rfl
  | cons a xs ih =>
    cases a with
    | mk k c =>
      by_cases hk : q = k
      · simp [FS.read, List.lookup, hk, firstSome]
      · have hbeq : (q == k) = false := by
          exact beq_false_of_ne hk
        simp [FS.read, List.lookup, hbeq, firstSome] at ih ⊢
        exact ih

theorem FS.read_some_mem (xs : FS) (q : FPath) (c : String)
    (h : FS.read xs q = some c) : (q, c) ∈ xs := by
  induction xs with
  | nil => simp [FS.read, List.lookup] at h
  | cons a xs ih =>
    cases a with
    | mk k b =>
      by_cases hk : q = k
      · simp [FS.read, List.lookup, hk] at h
        rw [hk, h]
        exact List.mem_cons_self _ _
      · have hbeq : (q == k) = false := beq_false_of_ne hk
        simp [FS.read, List.lookup, hbeq] at h
        exact List.mem_cons_of_mem _ (ih h)

/-- A path owned by no host in a write list is read through it unchanged. -/
theorem FS.read_append_of_unowned (xs ys : FS) (q : FPath)
    (h : ∀ c, (q, c) ∉ xs) : FS.read (xs ++ ys) q = FS.read ys q := by
  rw [FS.read_append]
  cases hx : FS.read xs q with
  | none => rfl
  | some c => exact absurd (FS.read_some_mem xs q c hx) (h c)

theorem Except.isOk_map {ε α β : Type} (f : α → β) (x : Except ε α) :
    (x.map f).isOk = x.isOk := by
  cases x <;> rfl

/-- The accumulated filesystem delta of a device list, later devices on top. -/
def joinD (env : Env V F C) (avd_facts : F) (scp icp : String) (strict : Bool) :
    List (String × V) → FS
  | [] => []
  | p :: rest =>
    joinD env avd_facts scp icp strict rest ++ unit_delta env avd_facts scp icp strict p

/-- The build stage succeeds exactly when every device's unit succeeds. -/
theorem build_all_isOk_iff (env : Env V F C) (l : List (String × V))
    (avd_facts : F) (scp icp : String) (strict : Bool) (fs : FS) :
    (build_and_write_all_device_configs env l avd_facts scp icp strict fs).2.2.isOk = true ↔
      ∀ p ∈ l, (unit_result env avd_facts strict p).isOk = true := by
  induction l generalizing fs with
  | nil => simp [build_and_write_all_device_configs, Except.isOk, Except.toBool]
  | cons p rest ih =>
    cases p with
    | mk hostname hostvars =>
      rw [build_and_write_all_device_configs]
      rw [build_and_write_device_config_eq]
      cases hr : unit_result env avd_facts strict (hostname, hostvars) with
      | error e =>
        simp only [hr]
        constructor
        · intro h
          exact absurd h (by simp [Except.isOk, Except.toBool])
        · intro h
          have := h (hostname, hostvars) (List.mem_cons_self _ _)
          rw [hr] at this
          exact absurd this (by simp [Except.isOk, Except.toBool])
      | ok hn =>
        simp only [hr, Except.isOk_map]
        rw [ih]
        constructor
        · intro h q hq
          rcases List.mem_cons.mp hq with hq1 | hq1
          · rw [hq1, hr]; rfl
          · exact h q hq1
        · intro h q hq
          exact h q (List.mem_cons_of_mem _ hq)

/-- When every unit succeeds, the final filesystem is the accumulated delta on
top of the incoming one. -/
theorem build_all_fs_of_ok (env : Env V F C) (l : List (String × V))
    (avd_facts : F) (scp icp : String) (strict : Bool) (fs : FS)
    (h : ∀ p ∈ l, (unit_result env avd_facts strict p).isOk = true) :
    (build_and_write_all_device_configs env l avd_facts scp icp strict fs).1 =
      joinD env avd_facts scp icp strict l ++ fs := by
  induction l generalizing fs with
  | nil => simp [build_and_write_all_device_configs, joinD]
  | cons p rest ih =>
    cases p with
    | mk hostname hostvars =>
      rw [build_and_write_all_device_configs]
      rw [build_and_write_device_config_eq]
      cases hr : unit_result env avd_facts strict (hostname, hostvars) with
      | error e =>
        have := h (hostname, hostvars) (List.mem_cons_self _ _)
        rw [hr] at this
        exact absurd this (by simp [Except.isOk, Except.toBool])
      | ok hn =>
        simp only [hr]
        rw [ih _ (fun q hq => h q (List.mem_cons_of_mem _ hq))]
        rw [joinD, List.append_assoc]

/-- Every event of the build stage trace comes from one listed device's unit. -/
theorem build_all_trace_sub (env : Env V F C) (l : List (String × V))
    (avd_facts : F) (scp icp : String) (strict : Bool) (fs : FS) (e : Event V C)
    (he : e ∈ (build_and_write_all_device_configs env l avd_facts scp icp strict fs).2.1) :
    ∃ p ∈ l, e ∈ unit_trace env avd_facts strict p := by
  induction l generalizing fs with
  | nil => simp [build_and_write_all_device_configs] at he
  | cons p rest ih =>
    cases p with
    | mk hostname hostvars =>
      rw [build_and_write_all_device_configs] at he
      rw [build_and_write_device_config_eq] at he
      cases hr : unit_result env avd_facts strict (hostname, hostvars) with
      | error msg =>
        rw [hr] at he
        simp only [] at he
        exact ⟨(hostname, hostvars), List.mem_cons_self _ _, he⟩
      | ok hn =>
        rw [hr] at he
        simp only [] at he
        rcases List.mem_append.mp he with h1 | h1
        · exact ⟨(hostname, hostvars), List.mem_cons_self _ _, h1⟩
        · rcases ih _ h1 with ⟨q, hq, hq2⟩
          exact ⟨q, List.mem_cons_of_mem _ hq, hq2⟩

/-- A unit's trace always opens with its own start marker. -/
theorem unit_trace_buildUnit (env : Env V F C) (avd_facts : F) (strict : Bool)
    (p : String × V) :
    Event.buildUnit p.1 ∈ unit_trace env avd_facts strict p := by
  unfold unit_trace
  cases env.get_device_structured_config p.1 p.2 avd_facts with
  | error msg => exact List.mem_cons_self _ _
  | ok sc =>
    simp only []
    by_cases hv : (env.validate_structured_config
        (template_structured_config env p.1 avd_facts sc)).failed && strict
    · simp [hv]
    · simp [hv]

/-- In a successful build stage, every listed device's unit was started. -/
theorem build_all_buildUnit_complete (env : Env V F C) (l : List (String × V))
    (avd_facts : F) (scp icp : String) (strict : Bool) (fs : FS)
    (hok : (build_and_write_all_device_configs env l avd_facts scp icp strict fs).2.2.isOk = true)
    (p : String × V) (hp : p ∈ l) :
    Event.buildUnit p.1 ∈
      (build_and_write_all_device_configs env l avd_facts scp icp strict fs).2.1 := by
  induction l generalizing fs with
  | nil => simp at hp
  | cons q rest ih =>
    cases q with
    | mk hostname hostvars =>
      cases hr : unit_result env avd_facts strict (hostname, hostvars) with
      | error msg =>
        rw [build_all_cons_error env hostname hostvars rest avd_facts scp icp strict fs msg hr] at hok
        exact absurd hok (by simp [Except.isOk, Except.toBool])
      | ok hn =>
        rw [build_all_cons_ok env hostname hostvars rest avd_facts scp icp strict fs hn hr] at hok ⊢
        simp only [Except.isOk_map] at hok
        rcases List.mem_cons.mp hp with hp1 | hp1
        · rw [hp1]
          exact List.mem_append.mpr (Or.inl (unit_trace_buildUnit env avd_facts strict _))
        · exact List.mem_append.mpr (Or.inr (ih _ hok hp1))

/-- A path owned by a host outside the device list is read through the build
stage unchanged, whatever the outcome. -/
theorem build_all_fs_preserves (env : Env V F C) (l : List (String × V))
    (avd_facts : F) (scp icp : String) (strict : Bool) (fs : FS) (q : FPath)
    (h : ∀ p ∈ l, pathHost q ≠ some p.1) :
    FS.read (build_and_write_all_device_configs env l avd_facts scp icp strict fs).1 q =
      FS.read fs q := by
  induction l generalizing fs with
  | nil => rfl
  | cons p rest ih =>
    cases p with
    | mk hostname hostvars =>
      have hdelta : ∀ c, (q, c) ∉ unit_delta env avd_facts scp icp strict (hostname, hostvars) := by
        intro c hc
        exact h (hostname, hostvars) (List.mem_cons_self _ _)
          (unit_delta_host env avd_facts scp icp strict _ q c hc)
      rw [build_and_write_all_device_configs]
      rw [build_and_write_device_config_eq]
      cases hr : unit_result env avd_facts strict (hostname, hostvars) with
      | error msg =>
        simp only []
        exact FS.read_append_of_unowned _ _ _ hdelta
      | ok hn =>
        simp only []
        rw [ih _ (fun p hp => h p (List.mem_cons_of_mem _ hp))]
        exact FS.read_append_of_unowned _ _ _ hdelta

/-- A unit's delta holds nothing for a path another host owns. -/
theorem unit_delta_read_none (env : Env V F C) (avd_facts : F) (scp icp : String)
    (strict : Bool) (p : String × V) (q : FPath)
    (hq : pathHost q ≠ some p.1) :
    FS.read (unit_delta env avd_facts scp icp strict p) q = none := by
  cases hx : FS.read (unit_delta env avd_facts scp icp strict p) q with
  | none => rfl
  | some c =>
    exact absurd
      (unit_delta_host env avd_facts scp icp strict p q c (FS.read_some_mem _ _ _ hx)) hq

theorem firstSome_none_right (x : Option String) : firstSome x none = x := by
  cases x <;> rfl

/-- With duplicate-free hostnames, the accumulated delta reads the same under
any permutation of the device list: each host writes only its own paths. -/
theorem joinD_read_perm (env : Env V F C) (avd_facts : F) (scp icp : String)
    (strict : Bool) {l l2 : List (String × V)} (hperm : l.Perm l2) (q : FPath)
    (hnd : (l.map Prod.fst).Nodup) :
    FS.read (joinD env avd_facts scp icp strict l) q =
      FS.read (joinD env avd_facts scp icp strict l2) q := by
  revert hnd
  induction hperm with
  | nil => intro hnd; rfl
  | cons p hperm ih =>
    intro hnd
    have hnd2 : _ := (List.nodup_cons.mp hnd).2
    rw [joinD, joinD, FS.read_append, FS.read_append, ih hnd2]
  | swap x y t =>
    intro hnd
    have hyx : y.1 ≠ x.1 := by
      have := (List.nodup_cons.mp hnd).1
      intro hcon
      exact this (List.mem_cons.mpr (Or.inl hcon))
    rw [joinD, joinD, joinD, joinD]
    rw [FS.read_append, FS.read_append, FS.read_append, FS.read_append]
    cases hjt : FS.read (joinD env avd_facts scp icp strict t) q with
    | some c => rfl
    | none =>
      by_cases hx : pathHost q = some x.1
      · have hy : pathHost q ≠ some y.1 := by
          rw [hx]
          intro hcon
          exact hyx (Option.some.inj hcon).symm
        rw [unit_delta_read_none env avd_facts scp icp strict y q hy, firstSome_none_right]
        rfl
      · rw [unit_delta_read_none env avd_facts scp icp strict x q hx, firstSome_none_right,
          firstSome_none_right]
  | trans h12 h23 ih1 ih2 =>
    intro hnd
    have hnd2 : _ := ((h12.map Prod.fst).nodup_iff).mp hnd
    rw [ih1 hnd, ih2 hnd2]

/-! Lemmas about the validation stage. -/

/-- The validation stage emits only input-validation events. -/
theorem validate_all_inputs_events (env : Env V F C) (l : List (String × V))
    (strict : Bool) (e : Event V C)
    (he : e ∈ (validate_all_inputs env l strict).1) :
    ∃ hn, e = Event.validateInput hn := by
  induction l with
  | nil => simp [validate_all_inputs] at he
  | cons p rest ih =>
    cases p with
    | mk hostname hostvars =>
      rw [validate_all_inputs] at he
      cases hr : validate_hostvars env hostname hostvars strict with
      | error msg =>
        rw [hr] at he
        simp at he
        exact ⟨hostname, he⟩
      | ok pair =>
        rw [hr] at he
        simp only [List.mem_cons] at he
        rcases he with h1 | h1
        · exact ⟨hostname, h1⟩
        · exact ih h1

/-- A successful validation stage returns the input mapping unchanged. -/
theorem validate_all_inputs_ok_eq (env : Env V F C) (l : List (String × V))
    (strict : Bool) (l2 : List (String × V))
    (h : (validate_all_inputs env l strict).2 = Except.ok l2) : l2 = l := by
  induction l generalizing l2 with
  | nil =>
    simp [validate_all_inputs] at h
    exact h
  | cons p rest ih =>
    cases p with
    | mk hostname hostvars =>
      rw [validate_all_inputs] at h
      cases hr : validate_hostvars env hostname hostvars strict with
      | error msg =>
        rw [hr] at h
        simp at h
      | ok pair =>
        rw [hr] at h
        simp only [] at h
        cases hnext : (validate_all_inputs env rest strict).2 with
        | error msg => rw [hnext] at h; simp [Except.map] at h
        | ok l3 =>
          rw [hnext] at h
          simp [Except.map] at h
          have hpair : pair = (hostname, hostvars) := by
            unfold validate_hostvars at hr
            by_cases hc : (env.validate_inputs hostvars).failed && strict
            · simp [hc] at hr
            · simp [hc] at hr
              exact hr.symm
          rw [← h, ih l3 hnext, hpair]

/-- Under strict mode, any failing device makes the validation stage raise,
with the error naming a failing device. -/
theorem validate_all_inputs_strict_fails (env : Env V F C) (l : List (String × V))
    (hfail : ∃ p ∈ l, (env.validate_inputs p.2).failed = true) :
    ∃ hn hv, (hn, hv) ∈ l ∧ (env.validate_inputs hv).failed = true ∧
      (validate_all_inputs env l true).2 =
        Except.error (hn ++ " validate_inputs failed") := by
  induction l with
  | nil => simp at hfail
  | cons p rest ih =>
    cases p with
    | mk hostname hostvars =>
      rw [validate_all_inputs]
      by_cases hf : (env.validate_inputs hostvars).failed = true
      · refine ⟨hostname, hostvars, List.mem_cons_self _ _, hf, ?_⟩
        have hr : validate_hostvars env hostname hostvars true =
            Except.error (hostname ++ " validate_inputs failed") := by
          unfold validate_hostvars
          simp [hf]
        rw [hr]
      · have hrest : ∃ p ∈ rest, (env.validate_inputs p.2).failed = true := by
          rcases hfail with ⟨q, hq, hq2⟩
          rcases List.mem_cons.mp hq with h1 | h1
          · rw [h1] at hq2
            exact absurd hq2 hf
          · exact ⟨q, h1, hq2⟩
        rcases ih hrest with ⟨hn, hv, hmem, hvf, herr⟩
        have hr : validate_hostvars env hostname hostvars true =
            Except.ok (hostname, hostvars) := by
          unfold validate_hostvars
          simp [hf]
        rw [hr]
        refine ⟨hn, hv, List.mem_cons_of_mem _ hmem, hvf, ?_⟩
        simp only []
        rw [herr]
        rfl

/-! Unfolding lemmas for the pipeline driver. -/

/-- `build` when the validation stage raises: the error propagates, nothing is
written and only validation events happened. -/
theorem build_validation_error (env : Env V F C) (fabric_hostvars : List (String × V))
    (target_hosts : List String) (icp scp : String) (avd_facts_path : Option String)
    (strict : Bool) (fs0 : FS) (e : String)
    (he : (validate_all_inputs (C := C) env fabric_hostvars strict).2 = Except.error e) :
    build env fabric_hostvars target_hosts icp scp avd_facts_path strict fs0 =
      (fs0, (validate_all_inputs env fabric_hostvars strict).1, Except.error e) := by
  rw [build]
  simp only [he]

/-- `build` when the validation stage succeeds. -/
theorem build_validation_ok (env : Env V F C) (fabric_hostvars : List (String × V))
    (target_hosts : List String) (icp scp : String) (avd_facts_path : Option String)
    (strict : Bool) (fs0 : FS) (l2 : List (String × V))
    (hok : (validate_all_inputs (C := C) env fabric_hostvars strict).2 = Except.ok l2) :
    build env fabric_hostvars target_hosts icp scp avd_facts_path strict fs0 =
      ((build_and_write_all_device_configs env
          (l2.filter (fun p => target_hosts.contains p.1))
          (generate_avd_facts (C := C) env l2 avd_facts_path fs0).1 scp icp strict
          (generate_avd_facts (C := C) env l2 avd_facts_path fs0).2.1).1,
       (validate_all_inputs env fabric_hostvars strict).1 ++
         (generate_avd_facts (C := C) env l2 avd_facts_path fs0).2.2 ++
         (build_and_write_all_device_configs env
            (l2.filter (fun p => target_hosts.contains p.1))
            (generate_avd_facts (C := C) env l2 avd_facts_path fs0).1 scp icp strict
            (generate_avd_facts (C := C) env l2 avd_facts_path fs0).2.1).2.1,
       Except.map List.length
         (build_and_write_all_device_configs env
            (l2.filter (fun p => target_hosts.contains p.1))
            (generate_avd_facts (C := C) env l2 avd_facts_path fs0).1 scp icp strict
            (generate_avd_facts (C := C) env l2 avd_facts_path fs0).2.1).2.2) := by
  rw [build]
  simp only [hok]

/-- The facts value returned by `generate_avd_facts` is the bare
`get_avd_facts` call, whether or not an artifact path is configured. -/
theorem generate_avd_facts_fst (env : Env V F C) (l : List (String × V))
    (avd_facts_path : Option String) (fs : FS) :
    (generate_avd_facts (C := C) env l avd_facts_path fs).1 = env.get_avd_facts l := by
  cases avd_facts_path <;> rfl

/-- The facts stage writes at most the facts artifact: any other path reads
through it unchanged. -/
theorem generate_avd_facts_read (env : Env V F C) (l : List (String × V))
    (avd_facts_path : Option String) (fs : FS) (q : FPath)
    (hq : ∀ p, q ≠ FPath.factsFile p) :
    FS.read (generate_avd_facts (C := C) env l avd_facts_path fs).2.1 q = FS.read fs q := by
  cases avd_facts_path with
  | none => rfl
  | some p =>
    have hbeq : (q == FPath.factsFile p) = false := beq_false_of_ne (hq p)
    simp [generate_avd_facts, FS.write, FS.read, List.lookup, hbeq]

/-- No event of the build stage is a facts derivation. -/
theorem build_all_no_deriveFacts (env : Env V F C) (l : List (String × V))
    (avd_facts : F) (scp icp : String) (strict : Bool) (fs : FS)
    (arg : List (String × V)) :
    Event.deriveFacts arg ∉
      (build_and_write_all_device_configs env l avd_facts scp icp strict fs).2.1 := by
  intro hmem
  rcases build_all_trace_sub env l avd_facts scp icp strict fs _ hmem with ⟨p, _, hp2⟩
  have := unit_trace_host env avd_facts strict p _ hp2
  simp [eventHost] at this

/-! Concrete collaborator instances, used to evaluate the pipeline on closed
inputs.  Hostvars, facts and structured configs are all natural numbers. -/

/-- Input validation fails exactly on hostvars 99; structured-config
validation fails exactly on the value 7; templating multiplies the merged
variables by 100 and adds the config. -/
def envA : Env Nat Nat Nat :=
  { validate_inputs := fun v =>
      { failed := v == 99, validation_errors := [], deprecation_warnings := [] },
    get_avd_facts := fun l => l.length,
    get_device_structured_config := fun _ v f => Except.ok (v + f),
    avd_switch_facts := fun f _ => f,
    vars_union := fun v c => v + c,
    template := fun v c => v * 100 + c,
    yaml_dump := fun c => "yml " ++ toString c,
    yaml_dump_facts := fun f => "facts " ++ toString f,
    validate_structured_config := fun c =>
      { failed := c == 7, validation_errors := [], deprecation_warnings := [] },
    get_device_config := fun c => "cfg " ++ toString c }

/-- Input validation always passes; the structured config is the hostvars
value unchanged (identity templating); structured-config validation fails
exactly on the value 7. -/
def envB : Env Nat Nat Nat :=
  { validate_inputs := fun _ =>
      { failed := false, validation_errors := [], deprecation_warnings := [] },
    get_avd_facts := fun l => l.length,
    get_device_structured_config := fun _ v _ => Except.ok v,
    avd_switch_facts := fun f _ => f,
    vars_union := fun _ c => c,
    template := fun _ c => c,
    yaml_dump := fun c => "yml " ++ toString c,
    yaml_dump_facts := fun f => "facts " ++ toString f,
    validate_structured_config := fun c =>
      { failed := c == 7, validation_errors := [], deprecation_warnings := [] },
    get_device_config := fun c => "cfg " ++ toString c }

/-- Structured-config derivation always raises with message "boom". -/
def envC : Env Nat Nat Nat :=
  { validate_inputs := fun _ =>
      { failed := false, validation_errors := [], deprecation_warnings := [] },
    get_avd_facts := fun l => l.length,
    get_device_structured_config := fun _ _ _ => Except.error "boom",
    avd_switch_facts := fun f _ => f,
    vars_union := fun _ c => c,
    template := fun _ c => c,
    yaml_dump := fun c => "yml " ++ toString c,
    yaml_dump_facts := fun f => "facts " ++ toString f,
    validate_structured_config := fun _ =>
      { failed := false, validation_errors := [], deprecation_warnings := [] },
    get_device_config := fun c => "cfg " ++ toString c }

/-- A concrete inventory whose fabric group contains the control-plane host
"cvp" next to a device. -/
def invA : Inventory Nat :=
  { hosts := ["cvp", "r1"],
    get_hosts := fun _ => ["cvp", "r1"],
    host_vars := fun _ => 0,
    template_vars := fun v => v }

/-! The claims. -/

/-- C1: in every strict run where some device's input validation fails,
`build` raises a fatal error naming a failing device before fact derivation:
`get_avd_facts` is never invoked, no facts artifact is written, and no
structured or rendered config artifact is written for any device — the
filesystem is untouched and every event of the run is an input-validation
event. -/
theorem strict_input_validation_aborts_before_facts (env : Env V F C)
    (fabric_hostvars : List (String × V)) (target_hosts : List String)
    (icp scp : String) (avd_facts_path : Option String) (fs0 : FS)
    (b : FS × List (Event V C) × Except String Nat)
    (hb : b = build env fabric_hostvars target_hosts icp scp avd_facts_path true fs0)
    (hfail : ∃ p ∈ fabric_hostvars, (env.validate_inputs p.2).failed = true) :
    (∃ hn hv, (hn, hv) ∈ fabric_hostvars ∧ (env.validate_inputs hv).failed = true ∧
      b.2.2 = Except.error (hn ++ " validate_inputs failed")) ∧
    b.1 = fs0 ∧
    (∀ e ∈ b.2.1, ∃ hn, e = Event.validateInput hn) := by
  rcases validate_all_inputs_strict_fails env fabric_hostvars hfail with
    ⟨hn, hv, hmem, hvf, herr⟩
  rw [build_validation_error env fabric_hostvars target_hosts icp scp avd_facts_path
    true fs0 _ herr] at hb
  subst hb
  exact ⟨⟨hn, hv, hmem, hvf, rfl⟩, rfl,
    fun e he => validate_all_inputs_events env fabric_hostvars true e he⟩

/-- Witness for C1: a one-device fabric whose inputs fail validation leaves
the filesystem empty under strict mode. -/
theorem strict_input_validation_aborts_before_facts_witness :
    (build envA [("r1", 99)] ["r1"] "ic" "sc" none true []).1 = [] :=
  (strict_input_validation_aborts_before_facts envA [("r1", 99)] ["r1"] "ic" "sc"
    none [] _ rfl ⟨("r1", 99), by decide, by decide⟩).2.1

/-- C2: in every run that reaches fact derivation, `get_avd_facts` is invoked
exactly once, its argument is the complete validated fabric mapping (never a
subset), and no per-device build unit starts before that single call has
returned: the trace splits around one `deriveFacts` event whose prefix holds
only input-validation events. -/
theorem facts_derived_once_with_full_fabric_before_builds (env : Env V F C)
    (fabric_hostvars : List (String × V)) (target_hosts : List String)
    (icp scp : String) (avd_facts_path : Option String) (strict : Bool) (fs0 : FS)
    (b : FS × List (Event V C) × Except String Nat)
    (hb : b = build env fabric_hostvars target_hosts icp scp avd_facts_path strict fs0)
    (hreach : ∃ arg, Event.deriveFacts arg ∈ b.2.1) :
    ∃ tpre tpost,
      b.2.1 = tpre ++ Event.deriveFacts fabric_hostvars :: tpost ∧
      (∀ e ∈ tpre, ∃ hn, e = Event.validateInput hn) ∧
      (∀ hn, Event.buildUnit hn ∉ tpre) ∧
      (∀ arg, Event.deriveFacts arg ∉ tpre) ∧
      (∀ arg, Event.deriveFacts arg ∉ tpost) := by
  cases hval : (validate_all_inputs (C := C) env fabric_hostvars strict).2 with
  | error e =>
    rw [build_validation_error env fabric_hostvars target_hosts icp scp avd_facts_path
      strict fs0 e hval] at hb
    subst hb
    rcases hreach with ⟨arg, harg⟩
    rcases validate_all_inputs_events env fabric_hostvars strict _ harg with ⟨hn, hcon⟩
    exact absurd hcon (by intro hcon2; cases hcon2)
  | ok l2 =>
    have hl2 : l2 = fabric_hostvars := validate_all_inputs_ok_eq env fabric_hostvars strict l2 hval
    rw [hl2] at hval
    rw [build_validation_ok env fabric_hostvars target_hosts icp scp avd_facts_path
      strict fs0 fabric_hostvars hval] at hb
    have hg : ∃ grest, (generate_avd_facts (C := C) env fabric_hostvars avd_facts_path fs0).2.2 =
        Event.deriveFacts fabric_hostvars :: grest ∧ ∀ arg, Event.deriveFacts arg ∉ grest := by
      cases avd_facts_path with
      | none => exact ⟨[], rfl, by intro arg h; simp at h⟩
      | some p =>
        refine ⟨[Event.writeFactsArtifact p], rfl, ?_⟩
        intro arg h
        simp at h
    rcases hg with ⟨grest, hgeq, hgno⟩
    refine ⟨(validate_all_inputs env fabric_hostvars strict).1,
      grest ++ (build_and_write_all_device_configs env
        (fabric_hostvars.filter (fun p => target_hosts.contains p.1))
        (generate_avd_facts (C := C) env fabric_hostvars avd_facts_path fs0).1 scp icp strict
        (generate_avd_facts (C := C) env fabric_hostvars avd_facts_path fs0).2.1).2.1, ?_, ?_, ?_, ?_, ?_⟩
    · rw [hb]
      simp only [hgeq]
      simp [List.append_assoc]
    · exact fun e he => validate_all_inputs_events env fabric_hostvars strict e he
    · intro hn hmem
      rcases validate_all_inputs_events env fabric_hostvars strict _ hmem with ⟨hn2, hcon⟩
      cases hcon
    · intro arg hmem
      rcases validate_all_inputs_events env fabric_hostvars strict _ hmem with ⟨hn2, hcon⟩
      cases hcon
    · intro arg hmem
      rcases List.mem_append.mp hmem with h1 | h1
      · exact hgno arg h1
      · exact build_all_no_deriveFacts env _ _ scp icp strict _ arg h1

/-- Witness for C2 at a concrete one-device run. -/
theorem facts_derived_once_with_full_fabric_before_builds_witness :
    ∃ tpre tpost, (build envB [("r1", 1)] ["r1"] "ic" "sc" none false []).2.1 =
      tpre ++ Event.deriveFacts [("r1", 1)] :: tpost ∧
      (∀ e ∈ tpre, ∃ hn, e = Event.validateInput hn) ∧
      (∀ hn, Event.buildUnit hn ∉ tpre) ∧
      (∀ arg, Event.deriveFacts arg ∉ tpre) ∧
      (∀ arg, Event.deriveFacts arg ∉ tpost) :=
  facts_derived_once_with_full_fabric_before_builds envB [("r1", 1)] ["r1"] "ic" "sc"
    none false [] _ rfl ⟨[("r1", 1)], by decide⟩

/-- C5: for every device whose structured-config derivation succeeds, the
structured-config artifact is written unconditionally before structured-config
validation runs — the trace opens with the write followed by the validation,
and the artifact is readable whatever the validation outcome — and under
strict mode a validation failure raises after that write, leaving the
rendered config unwritten. -/
theorem structured_artifact_written_before_validation (env : Env V F C)
    (hostname : String) (inputs : V) (avd_facts : F) (scp icp : String)
    (strict : Bool) (fs0 : FS) (sc : C)
    (hsc : env.get_device_structured_config hostname inputs avd_facts = Except.ok sc)
    (u : FS × List (Event V C) × Except String String)
    (hu : u = build_and_write_device_config env hostname inputs avd_facts scp icp strict fs0) :
    FS.read u.1 (FPath.structured scp hostname) =
      some (env.yaml_dump (template_structured_config env hostname avd_facts sc)) ∧
    (∃ rest, u.2.1 =
      Event.buildUnit hostname ::
      Event.writeStructured hostname
        (env.yaml_dump (template_structured_config env hostname avd_facts sc)) ::
      Event.validateStructured hostname (template_structured_config env hostname avd_facts sc)
        :: rest) ∧
    ((env.validate_structured_config
        (template_structured_config env hostname avd_facts sc)).failed = true →
      strict = true →
      u.2.2 = Except.error (hostname ++ " validate_structured_config failed") ∧
      FS.read u.1 (FPath.rendered icp hostname) = FS.read fs0 (FPath.rendered icp hostname)) := by
  have hne1 : (FPath.structured scp hostname == FPath.rendered icp hostname) = false :=
    beq_false_of_ne (fun h => FPath.noConfusion h)
  have hne2 : (FPath.rendered icp hostname == FPath.structured scp hostname) = false :=
    beq_false_of_ne (fun h => FPath.noConfusion h)
  simp only [build_and_write_device_config, hsc] at hu
  by_cases hcond : ((env.validate_structured_config
      (template_structured_config env hostname avd_facts sc)).failed && strict) = true
  · rw [if_pos hcond] at hu
    subst hu
    refine ⟨?_, ⟨[], rfl⟩, ?_⟩
    · simp [FS.read, FS.write, List.lookup]
    · intro _ _
      exact ⟨rfl, by simp [FS.read, FS.write, List.lookup, hne2]⟩
  · rw [if_neg hcond] at hu
    subst hu
    refine ⟨?_,
      ⟨[Event.writeRendered hostname
        (env.get_device_config (template_structured_config env hostname avd_facts sc))], rfl⟩, ?_⟩
    · simp [FS.read, FS.write, List.lookup, hne1]
    · intro hf hs
      rw [hf, hs] at hcond
      simp at hcond

/-- Witness for C5: a device whose templated config fails validation under
strict mode still has its structured artifact on disk, and the unit raised. -/
theorem structured_artifact_written_before_validation_witness :
    FS.read (build_and_write_device_config envB "a" 7 0 "sc" "ic" true []).1
        (FPath.structured "sc" "a") =
      some (envB.yaml_dump (template_structured_config envB "a" 0 7)) ∧
    (build_and_write_device_config envB "a" 7 0 "sc" "ic" true []).2.2 =
      Except.error ("a" ++ " validate_structured_config failed") :=
  ⟨(structured_artifact_written_before_validation envB "a" 7 0 "sc" "ic" true [] 7
      rfl _ rfl).1,
   ((structured_artifact_written_before_validation envB "a" 7 0 "sc" "ic" true [] 7
      rfl _ rfl).2.2 (by decide) rfl).1⟩

/-- C10: the config that is persisted, validated and rendered is not the raw
`get_device_structured_config` output but the result of one more templating
pass over it, whose template variables are the device's
`avd_facts["avd_switch_facts"][hostname]` merged with the structured config
itself. -/
theorem persisted_config_is_template_pass_result (env : Env V F C)
    (hostname : String) (inputs : V) (avd_facts : F) (scp icp : String)
    (strict : Bool) (fs0 : FS) (sc : C)
    (hsc : env.get_device_structured_config hostname inputs avd_facts = Except.ok sc)
    (u : FS × List (Event V C) × Except String String)
    (hu : u = build_and_write_device_config env hostname inputs avd_facts scp icp strict fs0) :
    template_structured_config env hostname avd_facts sc =
      env.template (env.vars_union (env.avd_switch_facts avd_facts hostname) sc) sc ∧
    FS.read u.1 (FPath.structured scp hostname) =
      some (env.yaml_dump (template_structured_config env hostname avd_facts sc)) ∧
    Event.validateStructured hostname (template_structured_config env hostname avd_facts sc)
      ∈ u.2.1 ∧
    (u.2.2 = Except.ok hostname →
      FS.read u.1 (FPath.rendered icp hostname) =
        some (env.get_device_config (template_structured_config env hostname avd_facts sc))) := by
  have hne1 : (FPath.structured scp hostname == FPath.rendered icp hostname) = false :=
    beq_false_of_ne (fun h => FPath.noConfusion h)
  simp only [build_and_write_device_config, hsc] at hu
  by_cases hcond : ((env.validate_structured_config
      (template_structured_config env hostname avd_facts sc)).failed && strict) = true
  · rw [if_pos hcond] at hu
    subst hu
    refine ⟨rfl, ?_, ?_, ?_⟩
    · simp [FS.read, FS.write, List.lookup]
    · simp
    · intro hcon
      cases hcon
  · rw [if_neg hcond] at hu
    subst hu
    refine ⟨rfl, ?_, ?_, ?_⟩
    · simp [FS.read, FS.write, List.lookup, hne1]
    · simp
    · intro _
      simp [FS.read, FS.write, List.lookup]

/-- Witness for C10: on a concrete successful unit, the rendered artifact is
the device config of the templated structured config. -/
theorem persisted_config_is_template_pass_result_witness :
    FS.read (build_and_write_device_config envA "a" 1 2 "sc" "ic" true []).1
        (FPath.rendered "ic" "a") =
      some (envA.get_device_config (template_structured_config envA "a" 2 3)) :=
  (persisted_config_is_template_pass_result envA "a" 1 2 "sc" "ic" true [] 3
    rfl _ rfl).2.2.2 rfl

/-- C4 (amended): an error raised by structured-config derivation is caught at
the unit boundary and re-raised as a single normalized error whose message is
exactly the original message — the device name is not added — with nothing
written and the unit abandoned. -/
theorem build_error_normalized_to_original_message (env : Env V F C)
    (hostname : String) (inputs : V) (avd_facts : F) (scp icp : String)
    (strict : Bool) (fs0 : FS) (msg : String)
    (herr : env.get_device_structured_config hostname inputs avd_facts = Except.error msg) :
    build_and_write_device_config env hostname inputs avd_facts scp icp strict fs0 =
      (fs0, [Event.buildUnit hostname], Except.error msg) := by
  simp only [build_and_write_device_config, herr]

/-- Witness for C4's amended statement on a concrete failing derivation. -/
theorem build_error_normalized_to_original_message_witness :
    build_and_write_device_config envC "r1" 0 0 "sc" "ic" true [] =
      ([], [Event.buildUnit "r1"], Except.error "boom") :=
  build_error_normalized_to_original_message envC "r1" 0 0 "sc" "ic" true [] "boom" rfl

/-- Counterexample for C4 as stated: the normalized error for device "r1" is
exactly the original message "boom"; the device name "r1" does not occur in
it, so the re-signaled error does not carry the device name. -/
theorem normalized_build_error_lacks_device_name :
    (build_and_write_device_config envC "r1" 0 0 "sc" "ic" true []).2.2 =
      Except.error "boom" ∧
    ¬ ("r1".toList <:+: "boom".toList) := by
  constructor
  · rfl
  · decide

/-- Counterexample for C3 as stated: in a strict run over fabric
{a, b} where a's structured-config validation fails, the run does NOT proceed
to completion with b's artifacts written — the error propagates out of the
build stage, b's unit never starts, and neither of b's artifacts exists;
only a's structured config was written. -/
theorem strict_structured_validation_abort_counterexample :
    (build envB [("a", 7), ("b", 1)] ["a", "b"] "ic" "sc" none true []).2.2 =
      Except.error "a validate_structured_config failed" ∧
    Event.buildUnit "b" ∉
      (build envB [("a", 7), ("b", 1)] ["a", "b"] "ic" "sc" none true []).2.1 ∧
    FS.read (build envB [("a", 7), ("b", 1)] ["a", "b"] "ic" "sc" none true []).1
      (FPath.structured "sc" "b") = none ∧
    FS.read (build envB [("a", 7), ("b", 1)] ["a", "b"] "ic" "sc" none true []).1
      (FPath.rendered "ic" "b") = none ∧
    FS.read (build envB [("a", 7), ("b", 1)] ["a", "b"] "ic" "sc" none true []).1
      (FPath.structured "sc" "a") = some "yml 7" := by
  refine ⟨rfl, by decide, by decide, by decide, by decide⟩

/-- Helper for C3: the in-order fold over a device list whose earlier units
all succeed and whose next unit fails strict structured-config validation
returns that error, never starts the units after the failure, and leaves the
failing device's structured artifact but not its rendered one.  This is used
only at single-chunk granularity, where the sequential fold is the exact
semantics of `_process_chunk`. -/
theorem strict_failure_chunk_fold_aux (env : Env V F C)
    (avd_facts : F) (scp icp : String) (l1 l2 : List (String × V))
    (hostname : String) (hostvars : V) (sc : C)
    (hsc : env.get_device_structured_config hostname hostvars avd_facts = Except.ok sc)
    (hval : (env.validate_structured_config
      (template_structured_config env hostname avd_facts sc)).failed = true) :
    ∀ fs0 : FS,
      ((l1 ++ (hostname, hostvars) :: l2).map Prod.fst).Nodup →
      (∀ p ∈ l1, (unit_result env avd_facts true p).isOk = true) →
      (build_and_write_all_device_configs env (l1 ++ (hostname, hostvars) :: l2)
          avd_facts scp icp true fs0).2.2 =
        Except.error (hostname ++ " validate_structured_config failed") ∧
      (∀ p ∈ l2, Event.buildUnit p.1 ∉
        (build_and_write_all_device_configs env (l1 ++ (hostname, hostvars) :: l2)
          avd_facts scp icp true fs0).2.1) ∧
      FS.read (build_and_write_all_device_configs env (l1 ++ (hostname, hostvars) :: l2)
          avd_facts scp icp true fs0).1 (FPath.structured scp hostname) =
        some (env.yaml_dump (template_structured_config env hostname avd_facts sc)) ∧
      FS.read (build_and_write_all_device_configs env (l1 ++ (hostname, hostvars) :: l2)
          avd_facts scp icp true fs0).1 (FPath.rendered icp hostname) =
        FS.read fs0 (FPath.rendered icp hostname) := by
  induction l1 with
  | nil =>
    intro fs0 hnd h1
    have hr : unit_result env avd_facts true (hostname, hostvars) =
        Except.error (hostname ++ " validate_structured_config failed") := by
      simp [unit_result, hsc, hval]
    have hdelta : unit_delta env avd_facts scp icp true (hostname, hostvars) =
        [(FPath.structured scp hostname,
          env.yaml_dump (template_structured_config env hostname avd_facts sc))] := by
      simp [unit_delta, hsc, hval]
    rw [List.nil_append] at hnd ⊢
    rw [build_all_cons_error env hostname hostvars l2 avd_facts scp icp true fs0 _ hr]
    refine ⟨rfl, ?_, ?_, ?_⟩
    · intro p hp hmem
      have hh := unit_trace_host env avd_facts true (hostname, hostvars) _ hmem
      simp [eventHost] at hh
      have hnotin : hostname ∉ l2.map Prod.fst := by
        rw [List.map_cons, List.nodup_cons] at hnd
        exact hnd.1
      exact hnotin (hh ▸ List.mem_map_of_mem Prod.fst hp)
    · rw [hdelta]
      simp [FS.read, List.lookup]
    · rw [hdelta]
      have hne : ((FPath.rendered icp hostname) == (FPath.structured scp hostname)) = false :=
        beq_false_of_ne (fun h => FPath.noConfusion h)
      simp [FS.read, List.lookup, hne]
  | cons q l1 ih =>
    intro fs0 hnd h1
    have hiok := h1 q (List.mem_cons_self _ _)
    cases hq : unit_result env avd_facts true q with
    | error e =>
      rw [hq] at hiok
      exact absurd hiok (by simp [Except.isOk, Except.toBool])
    | ok hn =>
      cases q with
      | mk qn qv =>
        rw [List.cons_append] at hnd ⊢
        simp only [List.map_cons, List.nodup_cons] at hnd
        have hqn_ne_host : qn ≠ hostname := by
          intro hcon
          exact hnd.1 (hcon ▸ List.mem_map_of_mem Prod.fst
            (List.mem_append.mpr (Or.inr (List.mem_cons_self _ _))))
        have hqn_ne_l2 : ∀ p ∈ l2, qn ≠ p.1 := by
          intro p hp hcon
          exact hnd.1 (hcon ▸ List.mem_map_of_mem Prod.fst
            (List.mem_append.mpr (Or.inr (List.mem_cons_of_mem _ hp))))
        have ihh := ih (unit_delta env avd_facts scp icp true (qn, qv) ++ fs0) hnd.2
          (fun p hp => h1 p (List.mem_cons_of_mem _ hp))
        rw [build_all_cons_ok env qn qv (l1 ++ (hostname, hostvars) :: l2) avd_facts
          scp icp true fs0 hn hq]
        refine ⟨?_, ?_, ?_, ?_⟩
        · rw [ihh.1]
          rfl
        · intro p hp hmem
          rcases List.mem_append.mp hmem with h2 | h2
          · have hh := unit_trace_host env avd_facts true (qn, qv) _ h2
            simp [eventHost] at hh
            exact hqn_ne_l2 p hp hh.symm
          · exact ihh.2.1 p hp h2
        · exact ihh.2.2.1
        · rw [ihh.2.2.2]
          exact FS.read_append_of_unowned _ _ _ (fun c hc => by
            have := unit_delta_host env avd_facts scp icp true (qn, qv) _ c hc
            simp [pathHost] at this
            exact hqn_ne_host this.symm)

/-- C3 (amended): under strict mode, a structured-config validation failure
for one device raises `RuntimeError(f"{hostname} validate_structured_config
failed")` in its worker, and the coordinator re-raises it from
`list(executor.map(...))`, aborting the run instead of completing with a
per-device report.  Within the failing device's chunk — the only units whose
fate the failure determines, since chunks already dispatched to other workers
are not cancelled — the devices ordered after the failing one are never
started and get no artifacts, while the failing device keeps its
structured-config artifact but not its rendered config. -/
theorem strict_structured_validation_failure_aborts_rest (env : Env V F C)
    (avd_facts : F) (scp icp : String) (l1 l2 : List (String × V))
    (hostname : String) (hostvars : V) (sc : C)
    (hsc : env.get_device_structured_config hostname hostvars avd_facts = Except.ok sc)
    (hval : (env.validate_structured_config
      (template_structured_config env hostname avd_facts sc)).failed = true) :
    ∀ fs0 : FS,
      ((l1 ++ (hostname, hostvars) :: l2).map Prod.fst).Nodup →
      (∀ p ∈ l1, (unit_result env avd_facts true p).isOk = true) →
      (process_chunk env (l1 ++ (hostname, hostvars) :: l2)
          avd_facts scp icp true fs0).2.2 =
        Except.error (hostname ++ " validate_structured_config failed") ∧
      (∀ p ∈ l2, Event.buildUnit p.1 ∉
        (process_chunk env (l1 ++ (hostname, hostvars) :: l2)
          avd_facts scp icp true fs0).2.1) ∧
      FS.read (process_chunk env (l1 ++ (hostname, hostvars) :: l2)
          avd_facts scp icp true fs0).1 (FPath.structured scp hostname) =
        some (env.yaml_dump (template_structured_config env hostname avd_facts sc)) ∧
      FS.read (process_chunk env (l1 ++ (hostname, hostvars) :: l2)
          avd_facts scp icp true fs0).1 (FPath.rendered icp hostname) =
        FS.read fs0 (FPath.rendered icp hostname) := by
  intro fs0 hnd h1
  rw [process_chunk_eq_fold env (l1 ++ (hostname, hostvars) :: l2) avd_facts scp icp
    true fs0]
  exact strict_failure_chunk_fold_aux env avd_facts scp icp l1 l2 hostname hostvars sc
    hsc hval fs0 hnd h1

/-- Witness for C3's amended statement: in a concrete two-device strict chunk,
device b (after the failing a in the same chunk) never starts. -/
theorem strict_structured_validation_failure_aborts_rest_witness :
    Event.buildUnit "b" ∉
      (process_chunk envB [("a", 7), ("b", 1)] 0 "sc" "ic" true []).2.1 :=
  (strict_structured_validation_failure_aborts_rest envB 0 "sc" "ic" [] [("b", 1)]
    "a" 7 7 rfl (by decide) [] (by decide) (by decide)).2.1 ("b", 1) (by decide)

theorem contains_iff_mem (l : List String) (a : String) :
    l.contains a = true ↔ a ∈ l := by
  simp

/-- Counterexample for C6 as stated: target "rX" is absent from the fabric
{r1}, yet no usage error occurs (the disjointness check passes because r1 is
shared), the run succeeds, and rX is silently skipped: no unit starts for it
and no artifact is written. -/
theorem absent_target_silently_skipped :
    main_select ["r1"] ["r1", "rX"] = true ∧
    (build envB [("r1", 1)] ["r1", "rX"] "ic" "sc" none false []).2.2 = Except.ok 1 ∧
    Event.buildUnit "rX" ∉
      (build envB [("r1", 1)] ["r1", "rX"] "ic" "sc" none false []).2.1 ∧
    FS.read (build envB [("r1", 1)] ["r1", "rX"] "ic" "sc" none false []).1
      (FPath.structured "sc" "rX") = none ∧
    FS.read (build envB [("r1", 1)] ["r1", "rX"] "ic" "sc" none false []).1
      (FPath.rendered "ic" "rX") = none :=
  ⟨rfl, rfl, by decide, by decide, by decide⟩

/-- C6 (amended): build and render operate exactly on the devices in the
intersection of the target set with the validated fabric; the usage error
fires only when the target set is empty or wholly disjoint from the fabric —
an individual target device absent from the fabric is silently dropped when
the intersection is nonempty. -/
theorem targets_intersection_and_disjoint_usage_error (env : Env V F C)
    (fabric_hostvars : List (String × V)) (target_hosts : List String)
    (icp scp : String) (avd_facts_path : Option String) (strict : Bool) (fs0 : FS)
    (b : FS × List (Event V C) × Except String Nat)
    (hb : b = build env fabric_hostvars target_hosts icp scp avd_facts_path strict fs0) :
    (main_select (fabric_hostvars.map Prod.fst) target_hosts = false ↔
      target_hosts = [] ∨ ∀ k ∈ fabric_hostvars.map Prod.fst, k ∉ target_hosts) ∧
    (∀ hn, Event.buildUnit hn ∈ b.2.1 →
      hn ∈ fabric_hostvars.map Prod.fst ∧ hn ∈ target_hosts) ∧
    (b.2.2.isOk = true → ∀ p ∈ fabric_hostvars, p.1 ∈ target_hosts →
      Event.buildUnit p.1 ∈ b.2.1) := by
  refine ⟨?_, ?_, ?_⟩
  · by_cases h0 : (target_hosts.length == 0) = true
    · have ht : target_hosts = [] := List.length_eq_zero.mp (by simpa using h0)
      simp [main_select, h0, ht]
    · by_cases hall :
        ((fabric_hostvars.map Prod.fst).all (fun k => !(target_hosts.contains k))) = true
      · have h2 : ∀ k ∈ fabric_hostvars.map Prod.fst, k ∉ target_hosts := by
          intro k hk
          have := List.all_eq_true.mp hall k hk
          simpa using this
        constructor
        · intro _
          exact Or.inr h2
        · intro _
          unfold main_select
          rw [if_neg h0, if_pos hall]
      · have ht : ¬ (target_hosts = []) := by
          intro hcon
          exact h0 (by simp [hcon])
        have h2 : ¬ (∀ k ∈ fabric_hostvars.map Prod.fst, k ∉ target_hosts) := by
          intro hcon
          apply hall
          rw [List.all_eq_true]
          intro k hk
          simpa using hcon k hk
        simp [main_select, h0, hall, ht, h2]
  · intro hn hmem
    rw [hb] at hmem
    cases hval : (validate_all_inputs (C := C) env fabric_hostvars strict).2 with
    | error e =>
      rw [build_validation_error env fabric_hostvars target_hosts icp scp avd_facts_path
        strict fs0 e hval] at hmem
      rcases validate_all_inputs_events env fabric_hostvars strict _ hmem with ⟨hh, hcon⟩
      cases hcon
    | ok l2 =>
      have hl2 := validate_all_inputs_ok_eq env fabric_hostvars strict l2 hval
      rw [hl2] at hval
      simp only [build_validation_ok env fabric_hostvars target_hosts icp scp avd_facts_path
        strict fs0 fabric_hostvars hval] at hmem
      rcases List.mem_append.mp hmem with h1 | h1
      · rcases List.mem_append.mp h1 with h2 | h2
        · rcases validate_all_inputs_events env fabric_hostvars strict _ h2 with ⟨hh, hcon⟩
          cases hcon
        · exfalso
          cases avd_facts_path with
          | none => simp [generate_avd_facts] at h2
          | some p => simp [generate_avd_facts] at h2
      · rcases build_all_trace_sub env _ _ scp icp strict _ _ h1 with ⟨p, hp, hp2⟩
        have hh := unit_trace_host env _ strict p _ hp2
        simp [eventHost] at hh
        have hpf := List.mem_filter.mp hp
        subst hh
        exact ⟨List.mem_map_of_mem Prod.fst hpf.1,
          (contains_iff_mem target_hosts p.1).mp hpf.2⟩
  · intro hok p hp hmem
    rw [hb] at hok ⊢
    cases hval : (validate_all_inputs (C := C) env fabric_hostvars strict).2 with
    | error e =>
      rw [build_validation_error env fabric_hostvars target_hosts icp scp avd_facts_path
        strict fs0 e hval] at hok
      exact absurd hok (by simp [Except.isOk, Except.toBool])
    | ok l2 =>
      have hl2 := validate_all_inputs_ok_eq env fabric_hostvars strict l2 hval
      rw [hl2] at hval
      simp only [build_validation_ok env fabric_hostvars target_hosts icp scp avd_facts_path
        strict fs0 fabric_hostvars hval] at hok ⊢
      rw [Except.isOk_map] at hok
      refine List.mem_append.mpr (Or.inr ?_)
      exact build_all_buildUnit_complete env _ _ scp icp strict _ hok p
        (List.mem_filter.mpr ⟨hp, (contains_iff_mem target_hosts p.1).mpr hmem⟩)

/-- Witness for C6's amended statement at a concrete run: r1 lies in the
intersection and its unit starts. -/
theorem targets_intersection_and_disjoint_usage_error_witness :
    Event.buildUnit "r1" ∈
      (build envB [("r1", 1)] ["r1", "rX"] "ic" "sc" none false []).2.1 :=
  (targets_intersection_and_disjoint_usage_error envB [("r1", 1)] ["r1", "rX"]
    "ic" "sc" none false [] _ rfl).2.2 (by decide) ("r1", 1) (by decide) (by decide)

/-- C7: when the target set selects a proper subset of the fabric, structured
and rendered artifacts are written only for target devices, while fact
derivation still receives every fabric device's validated variables. -/
theorem subset_target_artifacts_and_full_fabric_facts (env : Env V F C)
    (fabric_hostvars : List (String × V)) (target_hosts : List String)
    (icp scp : String) (avd_facts_path : Option String) (strict : Bool) (fs0 : FS)
    (b : FS × List (Event V C) × Except String Nat)
    (hb : b = build env fabric_hostvars target_hosts icp scp avd_facts_path strict fs0)
    (hsub : ∀ t ∈ target_hosts, t ∈ fabric_hostvars.map Prod.fst)
    (hproper : ∃ k ∈ fabric_hostvars.map Prod.fst, k ∉ target_hosts) :
    (∀ arg, Event.deriveFacts arg ∈ b.2.1 → arg = fabric_hostvars) ∧
    (∀ dir hn, hn ∉ target_hosts →
      FS.read b.1 (FPath.structured dir hn) = FS.read fs0 (FPath.structured dir hn)) ∧
    (∀ dir hn, hn ∉ target_hosts →
      FS.read b.1 (FPath.rendered dir hn) = FS.read fs0 (FPath.rendered dir hn)) := by
  cases hval : (validate_all_inputs (C := C) env fabric_hostvars strict).2 with
  | error e =>
    rw [build_validation_error env fabric_hostvars target_hosts icp scp avd_facts_path
      strict fs0 e hval] at hb
    subst hb
    refine ⟨?_, fun dir hn _ => rfl, fun dir hn _ => rfl⟩
    intro arg harg
    rcases validate_all_inputs_events env fabric_hostvars strict _ harg with ⟨hh, hcon⟩
    cases hcon
  | ok l2 =>
    have hl2 := validate_all_inputs_ok_eq env fabric_hostvars strict l2 hval
    rw [hl2] at hval
    simp only [build_validation_ok env fabric_hostvars target_hosts icp scp avd_facts_path
      strict fs0 fabric_hostvars hval] at hb
    subst hb
    have howner : ∀ (q : FPath) hn, pathHost q = some hn → hn ∉ target_hosts →
        ∀ p ∈ fabric_hostvars.filter (fun p => target_hosts.contains p.1),
          pathHost q ≠ some p.1 := by
      intro q hn hq hn_notin p hp hcon
      have hpf := List.mem_filter.mp hp
      rw [hq] at hcon
      have : hn = p.1 := Option.some.inj hcon
      exact hn_notin (this ▸ (contains_iff_mem target_hosts p.1).mp hpf.2)
    refine ⟨?_, ?_, ?_⟩
    · intro arg harg
      rcases List.mem_append.mp harg with h1 | h1
      · rcases List.mem_append.mp h1 with h2 | h2
        · rcases validate_all_inputs_events env fabric_hostvars strict _ h2 with ⟨hh, hcon⟩
          cases hcon
        · cases avd_facts_path with
          | none =>
            simp [generate_avd_facts] at h2
            rw [h2]
          | some p =>
            simp [generate_avd_facts] at h2
            rw [h2]
      · exact absurd h1 (build_all_no_deriveFacts env _ _ scp icp strict _ arg)
    · intro dir hn hn_notin
      rw [build_all_fs_preserves env _ _ scp icp strict _ _
        (howner (FPath.structured dir hn) hn rfl hn_notin)]
      exact generate_avd_facts_read env fabric_hostvars avd_facts_path fs0 _
        (fun p => fun h => FPath.noConfusion h)
    · intro dir hn hn_notin
      rw [build_all_fs_preserves env _ _ scp icp strict _ _
        (howner (FPath.rendered dir hn) hn rfl hn_notin)]
      exact generate_avd_facts_read env fabric_hostvars avd_facts_path fs0 _
        (fun p => fun h => FPath.noConfusion h)

/-- Witness for C7: fabric {r1, r2, r3} with target {r2} — r1 gets no
structured artifact even though facts saw the whole fabric. -/
theorem subset_target_artifacts_and_full_fabric_facts_witness :
    FS.read (build envB [("r1", 1), ("r2", 2), ("r3", 3)] ["r2"] "ic" "sc" none false []).1
      (FPath.structured "sc" "r1") = FS.read [] (FPath.structured "sc" "r1") :=
  (subset_target_artifacts_and_full_fabric_facts envB [("r1", 1), ("r2", 2), ("r3", 3)]
    ["r2"] "ic" "sc" none false [] _ rfl (by decide) ⟨"r1", by decide, by decide⟩).2.1
    "sc" "r1" (by decide)

/-- Counterexample for C8 as stated: an inventory whose fabric group contains
the host "cvp" — the pyavd_cli loader keeps it, and the device-name set
passed to fact derivation contains "cvp". -/
theorem cvp_included_by_get_fabric_hostvars :
    "cvp" ∈ (get_fabric_hostvars invA "FABRIC").map Prod.fst ∧
    Event.deriveFacts [("cvp", 0), ("r1", 0)] ∈
      (build envB (get_fabric_hostvars invA "FABRIC") ["r1"] "ic" "sc" none false []).2.1 := by
  constructor
  · decide
  · decide

/-- C8 (amended): the "cvp" exclusion exists only in the legacy loader of
src/pyavd-cli/build.py, whose output never contains "cvp"; the pyavd_cli
loader `get_fabric_hostvars` applies no name-based exclusion at all — its
device-name set is exactly the hosts matched by the fabric pattern. -/
theorem cvp_exclusion_only_in_legacy_loader (V : Type) :
    (∀ inv : Inventory V, "cvp" ∉ (load_all_hostvars_legacy inv).map Prod.fst) ∧
    (∀ (inv : Inventory V) (fabric_name : String),
      (get_fabric_hostvars inv fabric_name).map Prod.fst = inv.get_hosts fabric_name) := by
  constructor
  · intro inv hmem
    simp [load_all_hostvars_legacy, List.mem_map, List.mem_filter] at hmem
  · intro inv fabric_name
    simp only [get_fabric_hostvars, List.map_map]
    exact List.map_id (inv.get_hosts fabric_name)

/-- Witness for C8's amended statement: the legacy loader drops "cvp" on the
concrete inventory holding it. -/
theorem cvp_exclusion_only_in_legacy_loader_witness :
    "cvp" ∉ (load_all_hostvars_legacy invA).map Prod.fst :=
  (cvp_exclusion_only_in_legacy_loader Nat).1 invA

/-- C9: with duplicate-free device names, a successful build stage writes the
same artifact bytes at every path regardless of the order in which the worker
pool executes the units: the run over any permutation of the device list also
succeeds and yields a filesystem that reads identically at every path. -/
theorem artifacts_deterministic_under_scheduling (env : Env V F C)
    (avd_facts : F) (scp icp : String) (strict : Bool) (fs0 : FS)
    (l l2 : List (String × V))
    (hnd : (l.map Prod.fst).Nodup) (hperm : l.Perm l2)
    (hok : (build_and_write_all_device_configs env l avd_facts scp icp
      strict fs0).2.2.isOk = true) :
    (build_and_write_all_device_configs env l2 avd_facts scp icp
      strict fs0).2.2.isOk = true ∧
    ∀ q, FS.read (build_and_write_all_device_configs env l avd_facts scp icp strict fs0).1 q =
      FS.read (build_and_write_all_device_configs env l2 avd_facts scp icp strict fs0).1 q := by
  have hok1 := (build_all_isOk_iff env l avd_facts scp icp strict fs0).mp hok
  have hok2 : ∀ p ∈ l2, (unit_result env avd_facts strict p).isOk = true :=
    fun p hp => hok1 p (hperm.mem_iff.mpr hp)
  refine ⟨(build_all_isOk_iff env l2 avd_facts scp icp strict fs0).mpr hok2, ?_⟩
  intro q
  rw [build_all_fs_of_ok env l avd_facts scp icp strict fs0 hok1,
    build_all_fs_of_ok env l2 avd_facts scp icp strict fs0 hok2,
    FS.read_append, FS.read_append,
    joinD_read_perm env avd_facts scp icp strict hperm q hnd]

/-- Witness for C9: the two-device build stage succeeds in reversed order and
reads the same rendered artifact for device a either way. -/
theorem artifacts_deterministic_under_scheduling_witness :
    (build_and_write_all_device_configs envB [("b", 2), ("a", 1)] 0 "sc" "ic"
      false []).2.2.isOk = true ∧
    FS.read (build_and_write_all_device_configs envB [("a", 1), ("b", 2)] 0 "sc" "ic"
        false []).1 (FPath.rendered "ic" "a") =
      FS.read (build_and_write_all_device_configs envB [("b", 2), ("a", 1)] 0 "sc" "ic"
        false []).1 (FPath.rendered "ic" "a") := by
  have h := artifacts_deterministic_under_scheduling envB 0 "sc" "ic" false []
    [("a", 1), ("b", 2)] [("b", 2), ("a", 1)] (by decide) (by decide) (by decide)
  exact ⟨h.1, h.2 (FPath.rendered "ic" "a")⟩

end PyavdCli
